import Mathlib

/-!
Verification of `src/webpack.config.js` (ff7-viewer).

The configuration file computes two absolute paths with Node's
`path.resolve(__dirname, rel)` and exports one declarative configuration
record.  We embed it shallowly:

* an absolute directory path is represented by its list of segments
  (`List String`), so `__dirname` becomes a parameter `dirname : List String`;
* Node's `path.resolve` is modelled on that representation: a relative
  path string is split on `'/'`, appended to the base directory's segments,
  and the result is normalised (empty and `"."` segments dropped, `".."`
  popping the previous segment), which matches Node's behaviour whenever the
  base directory is an absolute normalised path, as `__dirname` always is;
* the exported object literal (lines 11-38 of the source) becomes the Lean
  function `config : List String → Configuration`, field for field.
-/

/-- Boolean test that `p` is an initial run of `l` (character lists). -/
def startsWithChars : List Char → List Char → Bool
  | [], _ => true
  | _ :: _, [] => false
  | p :: ps, c :: cs => p == c && startsWithChars ps cs

/-- Boolean test that string `s` ends with the string `suffixStr`. -/
def endsWithStr (s suffixStr : String) : Bool :=
  startsWithChars suffixStr.toList.reverse s.toList.reverse

/-- Boolean test that `pat` occurs contiguously inside the character list. -/
def hasInfixChars (pat : List Char) : List Char → Bool
  | [] => pat.isEmpty
  | c :: rest => startsWithChars pat (c :: rest) || hasInfixChars pat rest

/-- Boolean test that the string `pat` occurs as a substring of `s`. -/
def hasSubstr (s pat : String) : Bool := hasInfixChars pat.toList s.toList

/-- One step of Node path normalisation: empty and `"."` segments are
dropped, `".."` removes the segment before it (a no-op at the root), and any
other segment is kept. -/
def Path.normStep (acc : List String) (seg : String) : List String :=
  if seg = "" ∨ seg = "." then acc
  else if seg = ".." then acc.dropLast
  else acc ++ [seg]

/-- Node path normalisation of a segment list (left to right). -/
def Path.normalize (segs : List String) : List String :=
  segs.foldl Path.normStep []

/-- Split a character list on `'/'`; `cur` holds the characters of the
current segment in reverse. -/
def Path.splitOnSlashAux (cur : List Char) : List Char → List String
  | [] => [String.mk cur.reverse]
  | '/' :: rest => String.mk cur.reverse :: Path.splitOnSlashAux [] rest
  | c :: rest => Path.splitOnSlashAux (c :: cur) rest

/-- Split a path string on `'/'` into its segments. -/
def Path.splitOnSlash (s : String) : List String :=
  Path.splitOnSlashAux [] s.toList

/-- Model of Node's `path.resolve(dir, rel)` for an absolute base directory
`dir` given by its segments: an absolute `rel` (leading `'/'`) replaces the
base, otherwise `rel`'s segments are appended; the result is normalised. -/
def Path.resolve (dir : List String) (rel : String) : List String :=
  match rel.toList with
  | '/' :: _ => Path.normalize (Path.splitOnSlash rel)
  | _ => Path.normalize (dir ++ Path.splitOnSlash rel)

/-- A relative path string is one that does not start with `'/'`. -/
def Path.relative (r : String) : Bool :=
  match r.toList with
  | '/' :: _ => false
  | _ => true

/-- A directory (as a segment list) is normalised when Node normalisation
leaves it unchanged; `__dirname` always satisfies this. -/
def Path.Normalized (d : List String) : Prop := Path.normalize d = d

instance (d : List String) : Decidable (Path.Normalized d) :=
  inferInstanceAs (Decidable (Path.normalize d = d))

/-- One rule of the copy plugin: `{ from: ..., to: ... }`. -/
structure CopyPattern where
  «from» : List String
  «to» : List String
deriving DecidableEq

/-- Options object passed to `CopyWebpackPlugin` (source lines 26-30). -/
structure CopyOptions where
  patterns : List CopyPattern
deriving DecidableEq

/-- Options object passed to `WasmPackPlugin` (source lines 31-33). -/
structure WasmPackOptions where
  crateDirectory : List String
deriving DecidableEq

/-- A plugin invocation: plugin identity together with its options. -/
inductive Plugin where
  | copyWebpackPlugin (options : CopyOptions)
  | wasmPackPlugin (options : WasmPackOptions)
deriving DecidableEq

/-- The `output` field (source lines 16-19). -/
structure OutputConfig where
  path : List String
  filename : String
deriving DecidableEq

/-- The `devServer.static` field (source lines 21-23). -/
structure StaticConfig where
  directory : List String
deriving DecidableEq

/-- The `devServer` field (source lines 20-24). -/
structure DevServerConfig where
  static : StaticConfig
deriving DecidableEq

/-- The `experiments` field (source lines 35-37). -/
structure ExperimentsConfig where
  asyncWebAssembly : Bool
deriving DecidableEq

/-- The shape of the exported webpack configuration object. -/
structure Configuration where
  mode : String
  entry : List (String × String)
  output : OutputConfig
  devServer : DevServerConfig
  plugins : List Plugin
  experiments : ExperimentsConfig
deriving DecidableEq

/-- Source line 6: `const dist = path.resolve(__dirname, './dist');`. -/
def dist (dirname : List String) : List String := Path.resolve dirname "./dist"

/-- Source line 7: `const static = path.resolve(__dirname, './www');`. -/
def static (dirname : List String) : List String := Path.resolve dirname "./www"

/-- Source lines 11-38: the exported `config` object, parameterised over
`__dirname`. -/
def config (dirname : List String) : Configuration where
  mode := "production"
  entry := [("bootstrap", "./bootstrap.js")]
  output := { path := dist dirname, filename := "[name].js" }
  devServer := { static := { directory := dist dirname } }
  plugins :=
    [ Plugin.copyWebpackPlugin
        { patterns := [{ «from» := static dirname, «to» := dist dirname }] },
      Plugin.wasmPackPlugin { crateDirectory := dirname } ]
  experiments := { asyncWebAssembly := true }

/-- All directory-valued fields of a configuration, in source order:
`output.path`, `devServer.static.directory`, each copy rule's `from` and
`to`, and each wasm-pack invocation's `crateDirectory`. -/
def Configuration.directoryFields (c : Configuration) : List (List String) :=
  [c.output.path, c.devServer.static.directory] ++
    c.plugins.flatMap fun p =>
      match p with
      | Plugin.copyWebpackPlugin o => o.patterns.flatMap fun pt => [pt.«from», pt.«to»]
      | Plugin.wasmPackPlugin o => [o.crateDirectory]

/-- Resolving the relative path `"."` against a normalised directory gives
back that directory, as in Node where `path.resolve(d, '.') === d` for a
normalised absolute `d`. -/
theorem Path.resolve_dot (d : List String) (h : Path.Normalized d) :
    Path.resolve d "." = d := by
  show Path.normalize (d ++ Path.splitOnSlash ".") = d
  have hs : Path.splitOnSlash "." = ["."] := by decide
  rw [hs, Path.normalize, List.foldl_append]
  show Path.normStep (Path.normalize d) "." = d
  rw [h]
  simp [Path.normStep]

/-- C1: the value bound to `output.path` and the value bound to
`devServer.static.directory` in the exported config are both the single path
obtained by resolving `'./dist'` against the configuration file's own
directory. -/
theorem output_path_and_devserver_directory_alias_dist (d : List String) :
    (config d).output.path = Path.resolve d "./dist" ∧
    (config d).devServer.static.directory = Path.resolve d "./dist" ∧
    (config d).devServer.static.directory = (config d).output.path :=
  ⟨rfl, rfl, rfl⟩

/-- C2: the `plugins` field of the exported config is a sequence of exactly
two plugin invocations: `CopyWebpackPlugin` first, then `WasmPackPlugin`
second. -/
theorem plugins_exactly_copy_then_wasm (d : List String) :
    ∃ copyOpts wasmOpts,
      (config d).plugins =
        [Plugin.copyWebpackPlugin copyOpts, Plugin.wasmPackPlugin wasmOpts] :=
  ⟨_, _, rfl⟩

/-- C3: the entry-point mapping of the exported config contains exactly one
entry, named `"bootstrap"`, whose source path ends in the file name
`"bootstrap.js"`. -/
theorem entry_single_bootstrap (d : List String) :
    ∃ p, (config d).entry = [("bootstrap", p)] ∧ endsWithStr p "bootstrap.js" = true :=
  ⟨"./bootstrap.js", rfl, by decide⟩

/-- C4: the asset-copy plugin is invoked with exactly one copy rule, whose
source directory is the resolved static-assets directory (`'./www'` resolved
against the config file's directory) and whose destination directory is the
resolved output directory, the same path as `output.path`. -/
theorem copy_plugin_single_rule_www_to_output (d : List String) :
    ∃ rest,
      (config d).plugins =
        Plugin.copyWebpackPlugin
          { patterns :=
              [{ «from» := Path.resolve d "./www", «to» := (config d).output.path }] }
          :: rest :=
  ⟨_, rfl⟩

/-- C5: the output filename pattern contains no content-hash placeholder
token (no `hash` substring, hence none of `[hash]`, `[contenthash]`,
`[chunkhash]`, `[fullhash]`), while it does contain the per-entry-name
placeholder `[name]`. -/
theorem output_filename_has_no_hash_token (d : List String) :
    hasSubstr (config d).output.filename "[name]" = true ∧
    hasSubstr (config d).output.filename "hash" = false ∧
    hasSubstr (config d).output.filename "[contenthash]" = false ∧
    hasSubstr (config d).output.filename "[hash]" = false ∧
    hasSubstr (config d).output.filename "[chunkhash]" = false ∧
    hasSubstr (config d).output.filename "[fullhash]" = false :=
  ⟨rfl, rfl, rfl, rfl, rfl, rfl⟩

/-- C6: the experiments record of the exported config has its
`asyncWebAssembly` flag present and equal to `true`. -/
theorem experiments_async_wasm_enabled (d : List String) :
    (config d).experiments.asyncWebAssembly = true :=
  rfl

/-- C7: every directory-valued field of the exported config (output path,
dev-server served directory, the copy rule's source and destination, and the
wasm-pack crate directory) is `path.resolve` of some relative path against
the configuration file's own directory. -/
theorem directory_fields_all_resolved_against_dirname (d : List String)
    (h : Path.Normalized d) :
    ∀ p ∈ (config d).directoryFields,
      ∃ r, Path.relative r = true ∧ p = Path.resolve d r := by
  intro p hp
  have hfields : (config d).directoryFields =
      [Path.resolve d "./dist", Path.resolve d "./dist", Path.resolve d "./www",
       Path.resolve d "./dist", d] := rfl
  rw [hfields] at hp
  simp only [List.mem_cons, List.not_mem_nil, or_false] at hp
  rcases hp with hp | hp | hp | hp | hp
  · exact ⟨"./dist", rfl, hp⟩
  · exact ⟨"./dist", rfl, hp⟩
  · exact ⟨"./www", rfl, hp⟩
  · exact ⟨"./dist", rfl, hp⟩
  · exact ⟨".", rfl, hp.trans (Path.resolve_dot d h).symm⟩

/-- Witness for C7 at the concrete directory `/home/user/ff7-viewer`. -/
theorem directory_fields_all_resolved_against_dirname_witness :
    Path.Normalized ["home", "user", "ff7-viewer"] ∧
    ∀ p ∈ (config ["home", "user", "ff7-viewer"]).directoryFields,
      ∃ r, Path.relative r = true ∧ p = Path.resolve ["home", "user", "ff7-viewer"] r :=
  ⟨by decide,
   directory_fields_all_resolved_against_dirname ["home", "user", "ff7-viewer"] (by decide)⟩

/-- C8: construction of the configuration value is deterministic: two
evaluations of the module with the same `__dirname` yield equal exported
config values. -/
theorem config_deterministic (d₁ d₂ : List String) (h : d₁ = d₂) :
    config d₁ = config d₂ := by
  rw [h]

/-- Witness for C8 at the concrete directory `/repo`. -/
theorem config_deterministic_witness :
    ["repo"] = ["repo"] ∧ config ["repo"] = config ["repo"] :=
  ⟨rfl, config_deterministic ["repo"] ["repo"] rfl⟩

/-- C9: the `mode` field of the exported config is exactly the string
`"production"`. -/
theorem mode_is_production (d : List String) :
    (config d).mode = "production" :=
  rfl

/-- C10: the crate directory passed to `WasmPackPlugin` is the configuration
file's own directory itself, not a subdirectory of it. -/
theorem wasm_crate_directory_is_dirname (d : List String) :
    ∃ copyOpts,
      (config d).plugins =
        [Plugin.copyWebpackPlugin copyOpts,
         Plugin.wasmPackPlugin { crateDirectory := d }] :=
  ⟨_, rfl⟩
